import Mathlib

/-
Shallow embedding of the Telegram scheduling bot (src/main.py).

The transport layer (python-telegram-bot) is modelled as explicit inputs
(the callback data, the message text, the sender) and explicit outputs
(an `Out` event per `send_message` / `edit_message_text` /
`edit_message_reply_markup` / `reply_text` call).  The sqlite database is
modelled as in-memory lists of rows inside `BotState`; each SQL statement
of main.py becomes the corresponding pure list operation.  The in-memory
Python dict `pending_rejections` (admin_id -> booking_id) is modelled as
an association list with overwrite-on-assignment semantics.
-/

namespace TBot

/-- Booking status strings of main.py: PENDING | APPROVED | REJECTED. -/
inductive Status where
  | PENDING
  | APPROVED
  | REJECTED
deriving DecidableEq, Repr

/-- One row of the `bookings` table (id, user_id, username, date, status, created_at). -/
structure Booking where
  id : Nat
  user_id : Nat
  username : String
  date : String
  status : Status
  created_at : Nat
deriving DecidableEq, Repr

/-- One row of the `booking_files` table. -/
structure BookingFile where
  booking_id : Nat
  file_id : String
  file_type : String
  file_name : String
deriving DecidableEq, Repr

/-- One row of the `admin_messages` table. -/
structure AdminMessage where
  booking_id : Nat
  admin_id : Nat
  message_id : Nat
deriving DecidableEq, Repr

/-- The persistent plus in-memory mutable state of the bot.
`next_id` models the sqlite AUTOINCREMENT counter for `bookings.id`;
`pending_rejections` models the Python dict admin_id -> booking_id. -/
structure BotState where
  bookings : List Booking
  next_id : Nat
  booking_files : List BookingFile
  admin_messages : List AdminMessage
  pending_rejections : List (Nat × Nat)
deriving DecidableEq, Repr

/-- Outbound transport effects, one constructor per bot-API call used. -/
inductive Out where
  | send_message (chat_id : Nat) (text : String)
  | edit_message_text (text : String)
  | edit_message_reply_markup (chat_id : Nat) (message_id : Nat)
  | reply_text (text : String)
deriving DecidableEq, Repr

/-- The admin clicking an approve/reject button (query.from_user). -/
structure AdminUser where
  id : Nat
  first_name : String
deriving DecidableEq, Repr

/-- The requester (message.from_user / query.from_user). -/
structure TgUser where
  id : Nat
  username : Option String
  full_name : String
deriving DecidableEq, Repr

/-- Python dict lookup `m.get(k)` / `k in m`. -/
def dict_get (m : List (Nat × Nat)) (k : Nat) : Option Nat :=
  (m.find? (fun p => decide (p.1 = k))).map (fun p => p.2)

/-- Python dict assignment `m[k] = v` (overwrites any previous binding of k). -/
def dict_set (m : List (Nat × Nat)) (k v : Nat) : List (Nat × Nat) :=
  (k, v) :: m.filter (fun p => decide (p.1 ≠ k))

/-- Python `m.pop(k)` (the removal part; the looked-up value is read via dict_get). -/
def dict_pop (m : List (Nat × Nat)) (k : Nat) : List (Nat × Nat) :=
  m.filter (fun p => decide (p.1 ≠ k))

/-- SELECT id, user_id, username, date, status FROM bookings WHERE id = ? (fetchone). -/
def get_booking (bs : List Booking) (booking_id : Nat) : Option Booking :=
  bs.find? (fun b => decide (b.id = booking_id))

/-- UPDATE bookings SET status = ? WHERE id = ?. -/
def set_booking_status (bs : List Booking) (booking_id : Nat) (status : Status) :
    List Booking :=
  bs.map (fun b => if b.id = booking_id then { b with status := status } else b)

/-- SELECT COUNT(*) FROM bookings WHERE date = ? AND status = APPROVED. -/
def count_approved_for_date (bs : List Booking) (date_str : String) : Nat :=
  (bs.filter (fun b => decide (b.date = date_str ∧ b.status = Status.APPROVED))).length

/-- SELECT COUNT(*) FROM bookings WHERE user_id = ? AND date = ? AND status != REJECTED,
then compared with > 0. -/
def user_has_booking_for_date (bs : List Booking) (user_id : Nat) (date_str : String) :
    Bool :=
  decide (0 <
    (bs.filter (fun b =>
      decide (b.user_id = user_id ∧ b.date = date_str ∧ b.status ≠ Status.REJECTED))).length)

/-- INSERT INTO bookings ... VALUES (..., PENDING, ...); returns lastrowid. -/
def create_booking (st : BotState) (user_id : Nat) (username : String)
    (date_str : String) (now : Nat) : BotState × Nat :=
  ({ st with
      bookings := st.bookings ++
        [{ id := st.next_id, user_id := user_id, username := username,
           date := date_str, status := Status.PENDING, created_at := now }],
      next_id := st.next_id + 1 },
   st.next_id)

/-- INSERT INTO booking_files ... -/
def add_booking_file (fs : List BookingFile) (booking_id : Nat)
    (file_id file_type file_name : String) : List BookingFile :=
  fs ++ [{ booking_id := booking_id, file_id := file_id,
           file_type := file_type, file_name := file_name }]

/-- SELECT file_id, file_type, file_name FROM booking_files WHERE booking_id = ?. -/
def get_booking_files (fs : List BookingFile) (booking_id : Nat) : List BookingFile :=
  fs.filter (fun f => decide (f.booking_id = booking_id))

/-- SELECT admin_id, message_id FROM admin_messages WHERE booking_id = ?. -/
def get_admin_messages (ms : List AdminMessage) (booking_id : Nat) : List (Nat × Nat) :=
  (ms.filter (fun m => decide (m.booking_id = booking_id))).map
    (fun m => (m.admin_id, m.message_id))

/-- DELETE FROM admin_messages WHERE booking_id = ?. -/
def clear_admin_messages (ms : List AdminMessage) (booking_id : Nat) : List AdminMessage :=
  ms.filter (fun m => decide (m.booking_id ≠ booking_id))

/- ------------------------------------------------------------------ -/
/- Calendar policy (is_allowed_weekday / next_n_sunthu).              -/
/- Days are modelled as day numbers with an epoch chosen so that      -/
/- `d % 7` is the Python `date.weekday()` value (Monday = 0 ... Sunday = 6);  -/
/- the isoformat string rendering of a date is left out as pure       -/
/- formatting.                                                        -/
/- ------------------------------------------------------------------ -/

/-- dt.weekday() in (6, 0, 1, 2, 3), i.e. Sunday through Thursday. -/
def is_allowed_weekday (d : Nat) : Bool :=
  decide (d % 7 = 6 ∨ d % 7 = 0 ∨ d % 7 = 1 ∨ d % 7 = 2 ∨ d % 7 = 3)

/-- The loop guard of next_n_sunthu:
`d >= today + timedelta(days=2) and is_allowed_weekday(d)`. -/
def eligible (today d : Nat) : Prop :=
  today + 2 ≤ d ∧ is_allowed_weekday d = true

instance (today d : Nat) : Decidable (eligible today d) := by
  unfold eligible
  infer_instance

/-- The while-loop of next_n_sunthu, made total with explicit fuel: starting
from day `d`, advance one day per iteration and collect eligible days until
`n` are found (or the fuel runs out; `next_n_sunthu` supplies enough fuel,
see `next_n_sunthu_length`). -/
def next_n_sunthu_aux (today : Nat) : Nat → Nat → Nat → List Nat
  | 0, _, _ => []
  | fuel + 1, n, d =>
    if n = 0 then []
    else if eligible today (d + 1) then
      (d + 1) :: next_n_sunthu_aux today fuel (n - 1) (d + 1)
    else
      next_n_sunthu_aux today fuel n (d + 1)

/-- next_n_sunthu(n): the next n Sunday-through-Thursday days strictly after
today that are at least two days ahead of today. -/
def next_n_sunthu (today : Nat) (n : Nat) : List Nat :=
  next_n_sunthu_aux today (7 * n + 7) n today

/-- Number of eligible days in the window (d, d + len]; used to show the
fuel supplied by next_n_sunthu is sufficient. -/
def count_eligible (today : Nat) : Nat → Nat → Nat
  | _, 0 => 0
  | d, len + 1 =>
    (if eligible today (d + 1) then 1 else 0) + count_eligible today (d + 1) len

/- ------------------------------------------------------------------ -/
/- Intake conversation (schedule_start -> receive_file_count ->       -/
/- receive_date_callback -> receive_file).                            -/
/- ------------------------------------------------------------------ -/

/-- ConversationHandler states; `END` is ConversationHandler.END. -/
inductive ConvState where
  | ASK_FILE_COUNT
  | ASK_DATE
  | ASK_DOC
  | END
deriving DecidableEq, Repr

/-- context.user_data of one requester. -/
structure UserData where
  file_count : Option Nat
  received_files : Option (List (String × String × String))
  chosen_date : Option String
deriving DecidableEq, Repr

/-- Python str.startswith(pre), on the character list so that it evaluates by
kernel reduction. -/
def py_starts_with (s pre : String) : Bool :=
  pre.data.isPrefixOf s.data

/-- Python str.strip(): drop leading and trailing whitespace.  (Defined on
the character list so that it evaluates by kernel reduction; Python strips a
slightly larger Unicode whitespace class, which no claim depends on.) -/
def py_strip (s : String) : String :=
  String.mk (((s.data.dropWhile Char.isWhitespace).reverse.dropWhile
    Char.isWhitespace).reverse)

/-- Decimal value of a digit list (used by str_to_int). -/
def digits_val (l : List Char) : Nat :=
  l.foldl (fun acc c => acc * 10 + (c.toNat - 48)) 0

/-- Python `int(text)` on already-stripped text: an optional sign followed by
decimal digits, anything else raises (None here).  (Python additionally
accepts underscore digit separators and non-ASCII digits; that widening is
irrelevant to the properties proved below.) -/
def str_to_int (s : String) : Option Int :=
  match s.data with
  | [] => none
  | c :: rest =>
    if c = '-' then
      if rest ≠ [] ∧ rest.all Char.isDigit then some (-(digits_val rest : Int)) else none
    else if c = '+' then
      if rest ≠ [] ∧ rest.all Char.isDigit then some ((digits_val rest : Int)) else none
    else
      if (c :: rest).all Char.isDigit then some ((digits_val (c :: rest) : Int)) else none

/-- receive_file_count: parse the declared file count; on failure or a count
below 1 re-prompt and stay in ASK_FILE_COUNT, otherwise record the count,
reset received_files and advance to ASK_DATE.  (The inline keyboard built
from next_n_sunthu 10 is transport-level UI and is not recorded in `Out`.) -/
def receive_file_count (text : String) (ud : UserData) :
    UserData × ConvState × List Out :=
  let t := py_strip text
  match str_to_int t with
  | none => (ud, ConvState.ASK_FILE_COUNT, [Out.reply_text "برجاء ادخال أرقام فقط"])
  | some c =>
    if c < 1 then
      (ud, ConvState.ASK_FILE_COUNT, [Out.reply_text "برجاء ادخال أرقام فقط"])
    else
      ({ ud with file_count := some c.toNat, received_files := some [] },
       ConvState.ASK_DATE, [Out.reply_text "من فضلك اختار موعد للزيارة "])

/-- receive_date_callback: validate the chosen date against duplicate and
capacity rules; an invalid choice terminates the conversation without
touching the store. -/
def receive_date_callback (user : TgUser) (data : String) (st : BotState)
    (ud : UserData) : UserData × ConvState × BotState × List Out :=
  if ¬ py_starts_with data "date:" then
    (ud, ConvState.END, st, [Out.edit_message_text "إختيار خاطئ"])
  else
    let date_str := data.drop 5
    if user_has_booking_for_date st.bookings user.id date_str then
      (ud, ConvState.END, st,
       [Out.edit_message_text
         ("بالفغل لديك موعد محدد " ++ date_str ++ ". لاتستطيع الحجز مرة اخري الان")])
    else if 10 ≤ count_approved_for_date st.bookings date_str then
      (ud, ConvState.END, st,
       [Out.edit_message_text (date_str ++ " التاريخ المحدد ملئ برجاء اختيار موعد اخر")])
    else
      ({ ud with chosen_date := some date_str }, ConvState.ASK_DOC, st,
       [Out.edit_message_text
         ("موعد الزيارة هو  " ++ date_str ++ "\nبرجاء رفع "
           ++ toString (ud.file_count.getD 0)
           ++ " ملف/صورة. يمكنك رفع الملفات واحد تلو الاخر. إضغط الغاء للتوقف")])

/-- The attachment carried by one requester message in state ASK_DOC. -/
inductive MsgContent where
  | document (file_id : String) (file_name : Option String)
  | photo (file_id : String)
  | other
deriving DecidableEq, Repr

/-- The document/photo/else branches at the top of receive_file, producing
(file_id, file_type, file_name) or nothing. -/
def extract_file (user : TgUser) (content : MsgContent) (now : Nat) :
    Option (String × String × String) :=
  match content with
  | MsgContent.document fid fname => some (fid, "document", fname.getD "document")
  | MsgContent.photo fid =>
      some (fid, "photo", "photo_" ++ toString user.id ++ "_" ++ toString now ++ ".jpg")
  | MsgContent.other => none

/-- Python f-string rendering of an optional value (None prints as "None"). -/
def py_opt_str (o : Option String) : String :=
  match o with
  | some s => s
  | none => "None"

/-- The per-file line of the admin summary:
`- {file_name or file_id} ({file_type})`. -/
def file_line (f : String × String × String) : String :=
  "- " ++ (if f.2.2 = "" then f.1 else f.2.2) ++ " (" ++ f.2.1 ++ ")"

/-- receive_file: collect one attachment; when the declared count is reached,
create the PENDING booking with its file rows, fan the summary out to every
admin recording the prompt message ids, and end the conversation.
`msg_id a` models the transport-assigned message id of the prompt sent to
admin `a` (the all-sends-succeed path of the try/except). -/
def receive_file (ADMIN_IDS : List Nat) (user : TgUser) (content : MsgContent)
    (now : Nat) (msg_id : Nat → Nat) (st : BotState) (ud : UserData) :
    UserData × ConvState × BotState × List Out :=
  match ud.chosen_date with
  | none => (ud, ConvState.END, st, [Out.reply_text "Date missing. Start with /schedule."])
  | some date_str =>
    match extract_file user content now with
    | none => (ud, ConvState.ASK_DOC, st, [Out.reply_text "ارسل صورة او ملف"])
    | some rec =>
      let files := (ud.received_files.getD []) ++ [rec]
      let ud1 := { ud with received_files := some files }
      let remaining : Int := (ud1.file_count.getD 0 : Int) - files.length
      if 0 < remaining then
        (ud1, ConvState.ASK_DOC, st,
         [Out.reply_text ("مستلم. مرسل " ++ toString remaining ++ " ملفات اخري")])
      else
        let created := create_booking st user.id (user.username.getD "") date_str now
        let st1 := created.1
        let booking_id := created.2
        let st2 := { st1 with
          booking_files := st1.booking_files ++ files.map
            (fun (f : String × String × String) =>
              ({ booking_id := booking_id, file_id := f.1,
                 file_type := f.2.1, file_name := f.2.2 } : BookingFile)) }
        let files_text := String.intercalate "\n"
          ((get_booking_files st2.booking_files booking_id).map (fun f =>
            file_line (f.file_id, f.file_type, f.file_name)))
        let caption := "New booking #" ++ toString booking_id
          ++ "\nUser: " ++ user.full_name ++ " (@" ++ py_opt_str user.username ++ ")"
          ++ "\nUserID: " ++ toString user.id
          ++ "\nDate: " ++ date_str
          ++ "\nFiles:\n" ++ files_text
        let st3 := { st2 with
          admin_messages := st2.admin_messages ++ ADMIN_IDS.map (fun a =>
            ({ booking_id := booking_id, admin_id := a, message_id := msg_id a } : AdminMessage)) }
        (ud1, ConvState.END, st3,
         ADMIN_IDS.map (fun a => Out.send_message a caption)
           ++ [Out.reply_text "في انتظار موافقة المسئولين لتأكيد طلبك"])

/- ------------------------------------------------------------------ -/
/- Approval coordinator (admin_approve_reject and                     -/
/- admin_rejection_reason_handler).                                   -/
/- ------------------------------------------------------------------ -/

/-- admin_approve_reject: handle an `approve:<id>` / `reject:<id>` button
press.  Note that the source unpacks the current `status` of the booking and
never consults it: there is no already-decided guard in this handler. -/
def admin_approve_reject (ADMIN_IDS : List Nat) (admin : AdminUser)
    (action : String) (booking_id : Nat) (st : BotState) : BotState × List Out :=
  match get_booking st.bookings booking_id with
  | none => (st, [Out.edit_message_text "لم يتم تحديد موعد"])
  | some b =>
    let retracts := (get_admin_messages st.admin_messages booking_id).map
      (fun p => Out.edit_message_reply_markup p.1 p.2)
    let st1 := { st with admin_messages := clear_admin_messages st.admin_messages booking_id }
    if action = "approve" then
      if 10 ≤ count_approved_for_date st1.bookings b.date then
        ({ st1 with bookings := set_booking_status st1.bookings booking_id Status.REJECTED },
         retracts
           ++ ADMIN_IDS.map (fun a => Out.send_message a
               ("Booking #" ++ toString booking_id ++ " auto-rejected (date "
                 ++ b.date ++ " is full)."))
           ++ [Out.send_message b.user_id
                ("Your booking #" ++ toString booking_id ++ " for " ++ b.date
                  ++ " was rejected automatically: date is full."),
               Out.edit_message_text
                ("Booking #" ++ toString booking_id ++ " auto-rejected (full).")])
      else
        ({ st1 with bookings := set_booking_status st1.bookings booking_id Status.APPROVED },
         retracts
           ++ ADMIN_IDS.map (fun a => Out.send_message a
               ("Booking #" ++ toString booking_id ++ " for " ++ b.date
                 ++ " approved by " ++ admin.first_name ++ "."))
           ++ [Out.send_message b.user_id
                ("Your booking #" ++ toString booking_id ++ " for " ++ b.date
                  ++ " was approved by " ++ admin.first_name ++ "."),
               Out.edit_message_text
                ("Booking #" ++ toString booking_id ++ " APPROVED by "
                  ++ admin.first_name ++ ".")])
    else if action = "reject" then
      ({ st1 with pending_rejections := dict_set st1.pending_rejections admin.id booking_id },
       retracts
         ++ [Out.send_message admin.id
              ("Please send the reason for rejecting booking #" ++ toString booking_id
                ++ ". (Your next message will be used as the reason)"),
             Out.edit_message_text
              ("Awaiting rejection reason from " ++ admin.first_name ++ "...")])
    else
      (st1, retracts)

/-- admin_rejection_reason_handler: a free-text message from an admin; only
acts when that admin has an outstanding pending rejection, requires a
non-empty (after strip) reason, then finalizes the rejection. -/
def admin_rejection_reason_handler (ADMIN_IDS : List Nat) (admin : AdminUser)
    (text : Option String) (st : BotState) : BotState × List Out :=
  match dict_get st.pending_rejections admin.id with
  | none => (st, [])
  | some booking_id =>
    let reason := py_strip (text.getD "")
    if reason = "" then
      (st, [Out.reply_text "Please send a non-empty text reason for rejection."])
    else
      let st1 := { st with pending_rejections := dict_pop st.pending_rejections admin.id }
      match get_booking st1.bookings booking_id with
      | none => (st1, [Out.reply_text "Booking not found."])
      | some b =>
        ({ st1 with bookings := set_booking_status st1.bookings booking_id Status.REJECTED },
         ADMIN_IDS.map (fun a => Out.send_message a
            ("Booking #" ++ toString booking_id ++ " for " ++ b.date
              ++ " was rejected by " ++ admin.first_name ++ ". Reason: " ++ reason))
           ++ [Out.send_message b.user_id
                ("Your booking #" ++ toString booking_id ++ " for " ++ b.date
                  ++ " was rejected by " ++ admin.first_name ++ ".\nReason: " ++ reason),
               Out.reply_text
                ("Booking #" ++ toString booking_id ++ " rejected and notifications sent.")])

/-- The status of one booking id in the store, if present. -/
def booking_status (bs : List Booking) (booking_id : Nat) : Option Status :=
  (get_booking bs booking_id).map Booking.status

/-- The invariant of claim C8: every approver has at most one outstanding
pending-rejection entry. -/
def at_most_one_pending (m : List (Nat × Nat)) : Prop :=
  (m.map Prod.fst).Nodup

/- ------------------------------------------------------------------ -/
/- Helper lemmas.                                                     -/
/- ------------------------------------------------------------------ -/

theorem dict_get_set_self (m : List (Nat × Nat)) (k v : Nat) :
    dict_get (dict_set m k v) k = some v := by
  simp [dict_get, dict_set, List.find?]

theorem dict_get_pop_self (m : List (Nat × Nat)) (k : Nat) :
    dict_get (dict_pop m k) k = none := by
  have h : (m.filter (fun p => decide (p.1 ≠ k))).find? (fun p => decide (p.1 = k))
      = none := by
    rw [List.find?_eq_none]
    intro x hx
    rw [List.mem_filter] at hx
    simpa using hx.2
  simp [dict_get, dict_pop, h]

theorem dict_set_keys_nodup (m : List (Nat × Nat)) (k v : Nat)
    (h : (m.map Prod.fst).Nodup) : ((dict_set m k v).map Prod.fst).Nodup := by
  unfold dict_set
  rw [List.map_cons, List.nodup_cons]
  constructor
  · intro hmem
    rw [List.mem_map] at hmem
    obtain ⟨p, hp, hpk⟩ := hmem
    rw [List.mem_filter] at hp
    have hne : p.1 ≠ k := by simpa using hp.2
    exact hne hpk
  · exact h.sublist (List.filter_sublist m |>.map Prod.fst)

theorem dict_pop_keys_nodup (m : List (Nat × Nat)) (k : Nat)
    (h : (m.map Prod.fst).Nodup) : ((dict_pop m k).map Prod.fst).Nodup :=
  h.sublist (List.filter_sublist m |>.map Prod.fst)

theorem get_booking_cons (b : Booking) (tl : List Booking) (j : Nat) :
    get_booking (b :: tl) j = if b.id = j then some b else get_booking tl j := by
  by_cases h : b.id = j <;> simp [get_booking, List.find?, h]

theorem set_booking_status_cons (b : Booking) (tl : List Booking) (i : Nat)
    (s : Status) :
    set_booking_status (b :: tl) i s
      = (if b.id = i then { b with status := s } else b) :: set_booking_status tl i s :=
  rfl

theorem get_booking_set_status_self (bs : List Booking) (i : Nat) (b : Booking)
    (s : Status) (h : get_booking bs i = some b) :
    get_booking (set_booking_status bs i s) i = some { b with status := s } := by
  induction bs with
  | nil => simp [get_booking] at h
  | cons hd tl ih =>
    rw [get_booking_cons] at h
    by_cases hi : hd.id = i
    · rw [if_pos hi] at h
      injection h with h
      subst h
      rw [set_booking_status_cons, if_pos hi, get_booking_cons]
      rw [show ({ hd with status := s } : Booking).id = hd.id from rfl, if_pos hi]
    · rw [if_neg hi] at h
      rw [set_booking_status_cons, if_neg hi, get_booking_cons, if_neg hi]
      exact ih h

theorem get_booking_set_status_ne (bs : List Booking) (i j : Nat) (s : Status)
    (h : j ≠ i) : get_booking (set_booking_status bs i s) j = get_booking bs j := by
  induction bs with
  | nil => rfl
  | cons hd tl ih =>
    by_cases hi : hd.id = i
    · have hj : ¬ hd.id = j := fun hh => h (hh.symm.trans hi)
      rw [set_booking_status_cons, if_pos hi, get_booking_cons, get_booking_cons]
      rw [show ({ hd with status := s } : Booking).id = hd.id from rfl]
      rw [if_neg hj, if_neg hj]
      exact ih
    · rw [set_booking_status_cons, if_neg hi, get_booking_cons, get_booking_cons]
      by_cases hj : hd.id = j
      · rw [if_pos hj, if_pos hj]
      · rw [if_neg hj, if_neg hj]
        exact ih

/-- The reject branch of admin_approve_reject, computed once for reuse. -/
theorem reject_result (ADMIN_IDS : List Nat) (admin : AdminUser) (booking_id : Nat)
    (st : BotState) (b : Booking) (hb : get_booking st.bookings booking_id = some b) :
    admin_approve_reject ADMIN_IDS admin "reject" booking_id st
      = ({ st with
            admin_messages := clear_admin_messages st.admin_messages booking_id,
            pending_rejections := dict_set st.pending_rejections admin.id booking_id },
         (get_admin_messages st.admin_messages booking_id).map
            (fun p => Out.edit_message_reply_markup p.1 p.2)
           ++ [Out.send_message admin.id
                ("Please send the reason for rejecting booking #" ++ toString booking_id
                  ++ ". (Your next message will be used as the reason)"),
               Out.edit_message_text
                ("Awaiting rejection reason from " ++ admin.first_name ++ "...")]) := by
  have hne : ("reject" : String) ≠ "approve" := by decide
  unfold admin_approve_reject
  rw [hb]
  simp [hne]

/-- The successful branch of admin_rejection_reason_handler, computed once. -/
theorem reason_result (ADMIN_IDS : List Nat) (admin : AdminUser) (text : String)
    (st : BotState) (booking_id : Nat) (b : Booking)
    (hdg : dict_get st.pending_rejections admin.id = some booking_id)
    (hb : get_booking st.bookings booking_id = some b)
    (ht : py_strip text = text) (hne : text ≠ "") :
    admin_rejection_reason_handler ADMIN_IDS admin (some text) st
      = ({ st with
            pending_rejections := dict_pop st.pending_rejections admin.id,
            bookings := set_booking_status st.bookings booking_id Status.REJECTED },
         ADMIN_IDS.map (fun a => Out.send_message a
            ("Booking #" ++ toString booking_id ++ " for " ++ b.date
              ++ " was rejected by " ++ admin.first_name ++ ". Reason: " ++ text))
           ++ [Out.send_message b.user_id
                ("Your booking #" ++ toString booking_id ++ " for " ++ b.date
                  ++ " was rejected by " ++ admin.first_name ++ ".\nReason: " ++ text),
               Out.reply_text
                ("Booking #" ++ toString booking_id
                  ++ " rejected and notifications sent.")]) := by
  unfold admin_rejection_reason_handler
  rw [hdg]
  simp [ht, hne, hb]

/-- State component of reject_result. -/
theorem reject_state (ADMIN_IDS : List Nat) (admin : AdminUser) (booking_id : Nat)
    (st : BotState) (b : Booking) (hb : get_booking st.bookings booking_id = some b) :
    (admin_approve_reject ADMIN_IDS admin "reject" booking_id st).1
      = { st with
            admin_messages := clear_admin_messages st.admin_messages booking_id,
            pending_rejections := dict_set st.pending_rejections admin.id booking_id } := by
  rw [reject_result ADMIN_IDS admin booking_id st b hb]

/-- State component of reason_result. -/
theorem reason_state (ADMIN_IDS : List Nat) (admin : AdminUser) (text : String)
    (st : BotState) (booking_id : Nat) (b : Booking)
    (hdg : dict_get st.pending_rejections admin.id = some booking_id)
    (hb : get_booking st.bookings booking_id = some b)
    (ht : py_strip text = text) (hne : text ≠ "") :
    (admin_rejection_reason_handler ADMIN_IDS admin (some text) st).1
      = { st with
            pending_rejections := dict_pop st.pending_rejections admin.id,
            bookings := set_booking_status st.bookings booking_id Status.REJECTED } := by
  rw [reason_result ADMIN_IDS admin text st booking_id b hdg hb ht hne]

/-- Looking up a freshly appended booking whose id is not used anywhere in
the store finds exactly the appended row. -/
theorem get_booking_append_fresh (bs : List Booking) (nb : Booking)
    (h : ∀ b ∈ bs, b.id ≠ nb.id) :
    get_booking (bs ++ [nb]) nb.id = some nb := by
  induction bs with
  | nil => simp [get_booking, List.find?]
  | cons hd tl ih =>
    have hne : ¬ hd.id = nb.id := h hd (List.mem_cons_self hd tl)
    rw [List.cons_append, get_booking_cons, if_neg hne]
    exact ih (fun b hb => h b (List.mem_cons_of_mem _ hb))

/-- The file rows of a fresh booking id are exactly the appended rows. -/
theorem get_booking_files_append_fresh (fs new : List BookingFile) (nid : Nat)
    (h1 : ∀ f ∈ fs, f.booking_id ≠ nid) (h2 : ∀ f ∈ new, f.booking_id = nid) :
    get_booking_files (fs ++ new) nid = new := by
  unfold get_booking_files
  rw [List.filter_append]
  have e1 : fs.filter (fun f => decide (f.booking_id = nid)) = [] := by
    rw [List.filter_eq_nil_iff]
    intro f hf
    simpa using h1 f hf
  have e2 : new.filter (fun f => decide (f.booking_id = nid)) = new := by
    rw [List.filter_eq_self]
    intro f hf
    simpa using h2 f hf
  rw [e1, e2, List.nil_append]

/- ------------------------------------------------------------------ -/
/- Claim theorems.                                                    -/
/- ------------------------------------------------------------------ -/

/-- Claim C9: a decide call naming a bookingId absent from the booking store
reports a booking-not-found message and returns with the bookings table, the
admin-messages ledger and the pending-rejection map all unchanged (the
returned state is the input state). -/
theorem C9_decide_unknown_booking_noop (ADMIN_IDS : List Nat) (admin : AdminUser)
    (action : String) (booking_id : Nat) (st : BotState)
    (h : get_booking st.bookings booking_id = none) :
    admin_approve_reject ADMIN_IDS admin action booking_id st
      = (st, [Out.edit_message_text "لم يتم تحديد موعد"]) := by
  unfold admin_approve_reject
  rw [h]

theorem C9_decide_unknown_booking_noop_witness :
    get_booking (BotState.mk [] 1 [] [] []).bookings 5 = none ∧
    admin_approve_reject [1] (AdminUser.mk 1 "A") "approve" 5 (BotState.mk [] 1 [] [] [])
      = (BotState.mk [] 1 [] [] [], [Out.edit_message_text "لم يتم تحديد موعد"]) :=
  ⟨rfl, C9_decide_unknown_booking_noop [1] (AdminUser.mk 1 "A") "approve" 5
    (BotState.mk [] 1 [] [] []) rfl⟩

/-- Claim C10: an approver with an outstanding pending rejection who submits an
empty or whitespace-only message is re-prompted for a non-empty reason; the
state (pending entry included) is returned unchanged and no booking status is
mutated. -/
theorem C10_empty_reason_reprompt_noop (ADMIN_IDS : List Nat) (admin : AdminUser)
    (text : Option String) (st : BotState) (booking_id : Nat)
    (hp : dict_get st.pending_rejections admin.id = some booking_id)
    (ht : py_strip (text.getD "") = "") :
    admin_rejection_reason_handler ADMIN_IDS admin text st
      = (st, [Out.reply_text "Please send a non-empty text reason for rejection."]) := by
  unfold admin_rejection_reason_handler
  rw [hp]
  simp [ht]

theorem C10_empty_reason_reprompt_noop_witness :
    dict_get (BotState.mk [] 1 [] [] [(7, 3)]).pending_rejections 7 = some 3 ∧
    py_strip ((some "   " : Option String).getD "") = "" ∧
    admin_rejection_reason_handler [7] (AdminUser.mk 7 "A") (some "   ")
        (BotState.mk [] 1 [] [] [(7, 3)])
      = (BotState.mk [] 1 [] [] [(7, 3)],
         [Out.reply_text "Please send a non-empty text reason for rejection."]) :=
  ⟨rfl, rfl, C10_empty_reason_reprompt_noop [7] (AdminUser.mk 7 "A") (some "   ")
    (BotState.mk [] 1 [] [] [(7, 3)]) 3 rfl rfl⟩

/-- Claim C1 as stated is violated by the code (code bug): the spec requires a
decide call on an already-terminal booking to be a no-op reporting "already
decided", but `admin_approve_reject` reads the status of the booking and never
consults it, so it re-runs the full decision logic.  Evaluated at a concrete
failing input — booking 1 already APPROVED for a date whose APPROVED count is
at capacity — a second approve click mutates the booking from APPROVED to
REJECTED (and re-sends notifications) instead of being a no-op. -/
theorem C1_terminal_decide_not_noop :
    booking_status
        ((List.range 10).map (fun i =>
          Booking.mk (i + 1) (100 + i) "u" "2025-06-08" Status.APPROVED 0)) 1
      = some Status.APPROVED ∧
    booking_status
        (admin_approve_reject [1] (AdminUser.mk 1 "A") "approve" 1
          (BotState.mk
            ((List.range 10).map (fun i =>
              Booking.mk (i + 1) (100 + i) "u" "2025-06-08" Status.APPROVED 0))
            11 [] [] [])).1.bookings 1
      = some Status.REJECTED := by
  exact ⟨rfl, rfl⟩

/-- Claim C7: a reject action on an existing pending booking does not finalize
it: the bookings table is untouched (so the status stays PENDING), the acting
approver gets a pending-rejection entry for this booking, and that approver is
prompted for the free-text reason. -/
theorem C7_reject_records_pending_keeps_booking (ADMIN_IDS : List Nat)
    (admin : AdminUser) (booking_id : Nat) (st : BotState) (b : Booking)
    (hb : get_booking st.bookings booking_id = some b)
    (hs : b.status = Status.PENDING) :
    (admin_approve_reject ADMIN_IDS admin "reject" booking_id st).1.bookings
      = st.bookings ∧
    dict_get
        (admin_approve_reject ADMIN_IDS admin "reject" booking_id st).1.pending_rejections
        admin.id
      = some booking_id ∧
    booking_status
        (admin_approve_reject ADMIN_IDS admin "reject" booking_id st).1.bookings
        booking_id
      = some Status.PENDING ∧
    Out.send_message admin.id
        ("Please send the reason for rejecting booking #" ++ toString booking_id
          ++ ". (Your next message will be used as the reason)")
      ∈ (admin_approve_reject ADMIN_IDS admin "reject" booking_id st).2 := by
  have hne : ("reject" : String) ≠ "approve" := by decide
  have hres : admin_approve_reject ADMIN_IDS admin "reject" booking_id st
      = ({ st with
            admin_messages := clear_admin_messages st.admin_messages booking_id,
            pending_rejections := dict_set st.pending_rejections admin.id booking_id },
         (get_admin_messages st.admin_messages booking_id).map
            (fun p => Out.edit_message_reply_markup p.1 p.2)
           ++ [Out.send_message admin.id
                ("Please send the reason for rejecting booking #" ++ toString booking_id
                  ++ ". (Your next message will be used as the reason)"),
               Out.edit_message_text
                ("Awaiting rejection reason from " ++ admin.first_name ++ "...")]) := by
    unfold admin_approve_reject
    rw [hb]
    simp [hne]
  rw [hres]
  refine ⟨rfl, dict_get_set_self _ _ _, ?_, ?_⟩
  · simp [booking_status, hb, hs]
  · simp

theorem C7_reject_records_pending_keeps_booking_witness :
    get_booking [Booking.mk 1 50 "u" "2025-06-08" Status.PENDING 0] 1
      = some (Booking.mk 1 50 "u" "2025-06-08" Status.PENDING 0) ∧
    dict_get
        (admin_approve_reject [9] (AdminUser.mk 9 "A") "reject" 1
          (BotState.mk [Booking.mk 1 50 "u" "2025-06-08" Status.PENDING 0]
            2 [] [] [])).1.pending_rejections 9
      = some 1 :=
  ⟨rfl,
   (C7_reject_records_pending_keeps_booking [9] (AdminUser.mk 9 "A") 1
     (BotState.mk [Booking.mk 1 50 "u" "2025-06-08" Status.PENDING 0] 2 [] [] [])
     (Booking.mk 1 50 "u" "2025-06-08" Status.PENDING 0) rfl rfl).2.1⟩

/-- Claim C2: approving a pending booking re-checks capacity for the date of
the booking at decision time.  If the APPROVED count for that date has already
reached 10, the booking is set to REJECTED and the requester and every
approver receive the automatic-rejection notification (texts distinct from the
approver-driven rejection wording); otherwise it is set to APPROVED. -/
theorem C2_approve_capacity_recheck (ADMIN_IDS : List Nat) (admin : AdminUser)
    (booking_id : Nat) (st : BotState) (b : Booking)
    (hb : get_booking st.bookings booking_id = some b)
    (hs : b.status = Status.PENDING) :
    (10 ≤ count_approved_for_date st.bookings b.date →
      booking_status
          (admin_approve_reject ADMIN_IDS admin "approve" booking_id st).1.bookings
          booking_id
        = some Status.REJECTED ∧
      (∀ a ∈ ADMIN_IDS,
        Out.send_message a
            ("Booking #" ++ toString booking_id ++ " auto-rejected (date "
              ++ b.date ++ " is full).")
          ∈ (admin_approve_reject ADMIN_IDS admin "approve" booking_id st).2) ∧
      Out.send_message b.user_id
          ("Your booking #" ++ toString booking_id ++ " for " ++ b.date
            ++ " was rejected automatically: date is full.")
        ∈ (admin_approve_reject ADMIN_IDS admin "approve" booking_id st).2) ∧
    (count_approved_for_date st.bookings b.date < 10 →
      booking_status
          (admin_approve_reject ADMIN_IDS admin "approve" booking_id st).1.bookings
          booking_id
        = some Status.APPROVED ∧
      (∀ a ∈ ADMIN_IDS,
        Out.send_message a
            ("Booking #" ++ toString booking_id ++ " for " ++ b.date
              ++ " approved by " ++ admin.first_name ++ ".")
          ∈ (admin_approve_reject ADMIN_IDS admin "approve" booking_id st).2) ∧
      Out.send_message b.user_id
          ("Your booking #" ++ toString booking_id ++ " for " ++ b.date
            ++ " was approved by " ++ admin.first_name ++ ".")
        ∈ (admin_approve_reject ADMIN_IDS admin "approve" booking_id st).2) := by
  constructor
  · intro hc
    have hres : admin_approve_reject ADMIN_IDS admin "approve" booking_id st
        = ({ st with
              admin_messages := clear_admin_messages st.admin_messages booking_id,
              bookings := set_booking_status st.bookings booking_id Status.REJECTED },
           (get_admin_messages st.admin_messages booking_id).map
              (fun p => Out.edit_message_reply_markup p.1 p.2)
             ++ ADMIN_IDS.map (fun a => Out.send_message a
                 ("Booking #" ++ toString booking_id ++ " auto-rejected (date "
                   ++ b.date ++ " is full)."))
             ++ [Out.send_message b.user_id
                  ("Your booking #" ++ toString booking_id ++ " for " ++ b.date
                    ++ " was rejected automatically: date is full."),
                 Out.edit_message_text
                  ("Booking #" ++ toString booking_id ++ " auto-rejected (full).")]) := by
      unfold admin_approve_reject
      rw [hb]
      simp [hc]
    rw [hres]
    refine ⟨?_, ?_, ?_⟩
    · simp [booking_status, get_booking_set_status_self st.bookings booking_id b
        Status.REJECTED hb]
    · intro a ha
      exact List.mem_append_left _ (List.mem_append_right _ (List.mem_map_of_mem _ ha))
    · exact List.mem_append_right _ (List.mem_cons_self _ _)
  · intro hc
    have hres : admin_approve_reject ADMIN_IDS admin "approve" booking_id st
        = ({ st with
              admin_messages := clear_admin_messages st.admin_messages booking_id,
              bookings := set_booking_status st.bookings booking_id Status.APPROVED },
           (get_admin_messages st.admin_messages booking_id).map
              (fun p => Out.edit_message_reply_markup p.1 p.2)
             ++ ADMIN_IDS.map (fun a => Out.send_message a
                 ("Booking #" ++ toString booking_id ++ " for " ++ b.date
                   ++ " approved by " ++ admin.first_name ++ "."))
             ++ [Out.send_message b.user_id
                  ("Your booking #" ++ toString booking_id ++ " for " ++ b.date
                    ++ " was approved by " ++ admin.first_name ++ "."),
                 Out.edit_message_text
                  ("Booking #" ++ toString booking_id ++ " APPROVED by "
                    ++ admin.first_name ++ ".")]) := by
      unfold admin_approve_reject
      rw [hb]
      simp [Nat.not_le.mpr hc]
    rw [hres]
    refine ⟨?_, ?_, ?_⟩
    · simp [booking_status, get_booking_set_status_self st.bookings booking_id b
        Status.APPROVED hb]
    · intro a ha
      exact List.mem_append_left _ (List.mem_append_right _ (List.mem_map_of_mem _ ha))
    · exact List.mem_append_right _ (List.mem_cons_self _ _)

theorem C2_approve_capacity_recheck_witness :
    get_booking [Booking.mk 1 50 "u" "2025-06-08" Status.PENDING 0] 1
      = some (Booking.mk 1 50 "u" "2025-06-08" Status.PENDING 0) ∧
    count_approved_for_date [Booking.mk 1 50 "u" "2025-06-08" Status.PENDING 0]
        "2025-06-08" < 10 ∧
    booking_status
        (admin_approve_reject [9] (AdminUser.mk 9 "A") "approve" 1
          (BotState.mk [Booking.mk 1 50 "u" "2025-06-08" Status.PENDING 0]
            2 [] [] [])).1.bookings 1
      = some Status.APPROVED :=
  ⟨rfl, by decide,
   ((C2_approve_capacity_recheck [9] (AdminUser.mk 9 "A") 1
       (BotState.mk [Booking.mk 1 50 "u" "2025-06-08" Status.PENDING 0] 2 [] [] [])
       (Booking.mk 1 50 "u" "2025-06-08" Status.PENDING 0) rfl rfl).2
     (by decide)).1⟩

/-- Claim C3: after an approver rejects an existing booking, a non-empty
free-text message from that same approver consumes the pending entry,
transitions the booking to REJECTED unconditionally, and the notification sent
to the requester carries exactly the submitted reason text. -/
theorem C3_rejection_reason_roundtrip (ADMIN_IDS : List Nat) (admin : AdminUser)
    (booking_id : Nat) (st : BotState) (b : Booking) (text : String)
    (hb : get_booking st.bookings booking_id = some b)
    (ht : py_strip text = text) (hne : text ≠ "") :
    dict_get
        (admin_rejection_reason_handler ADMIN_IDS admin (some text)
          (admin_approve_reject ADMIN_IDS admin "reject" booking_id st).1).1.pending_rejections
        admin.id
      = none ∧
    booking_status
        (admin_rejection_reason_handler ADMIN_IDS admin (some text)
          (admin_approve_reject ADMIN_IDS admin "reject" booking_id st).1).1.bookings
        booking_id
      = some Status.REJECTED ∧
    Out.send_message b.user_id
        ("Your booking #" ++ toString booking_id ++ " for " ++ b.date
          ++ " was rejected by " ++ admin.first_name ++ ".\nReason: " ++ text)
      ∈ (admin_rejection_reason_handler ADMIN_IDS admin (some text)
          (admin_approve_reject ADMIN_IDS admin "reject" booking_id st).1).2 := by
  have hne2 : ("reject" : String) ≠ "approve" := by decide
  have hst1 : (admin_approve_reject ADMIN_IDS admin "reject" booking_id st).1
      = { st with
            admin_messages := clear_admin_messages st.admin_messages booking_id,
            pending_rejections := dict_set st.pending_rejections admin.id booking_id } := by
    unfold admin_approve_reject
    rw [hb]
    simp [hne2]
  rw [hst1]
  have hdg : dict_get (dict_set st.pending_rejections admin.id booking_id) admin.id
      = some booking_id := dict_get_set_self _ _ _
  have hres : admin_rejection_reason_handler ADMIN_IDS admin (some text)
      { st with
          admin_messages := clear_admin_messages st.admin_messages booking_id,
          pending_rejections := dict_set st.pending_rejections admin.id booking_id }
      = ({ st with
            admin_messages := clear_admin_messages st.admin_messages booking_id,
            pending_rejections :=
              dict_pop (dict_set st.pending_rejections admin.id booking_id) admin.id,
            bookings := set_booking_status st.bookings booking_id Status.REJECTED },
         ADMIN_IDS.map (fun a => Out.send_message a
            ("Booking #" ++ toString booking_id ++ " for " ++ b.date
              ++ " was rejected by " ++ admin.first_name ++ ". Reason: " ++ text))
           ++ [Out.send_message b.user_id
                ("Your booking #" ++ toString booking_id ++ " for " ++ b.date
                  ++ " was rejected by " ++ admin.first_name ++ ".\nReason: " ++ text),
               Out.reply_text
                ("Booking #" ++ toString booking_id
                  ++ " rejected and notifications sent.")]) := by
    unfold admin_rejection_reason_handler
    rw [show ({ st with
          admin_messages := clear_admin_messages st.admin_messages booking_id,
          pending_rejections := dict_set st.pending_rejections admin.id booking_id }
        : BotState).pending_rejections
      = dict_set st.pending_rejections admin.id booking_id from rfl]
    rw [hdg]
    simp [ht, hne, hb]
  rw [hres]
  refine ⟨dict_get_pop_self _ _, ?_, ?_⟩
  · simp [booking_status, get_booking_set_status_self st.bookings booking_id b
      Status.REJECTED hb]
  · exact List.mem_append_right _ (List.mem_cons_self _ _)

theorem C3_rejection_reason_roundtrip_witness :
    get_booking [Booking.mk 1 50 "u" "2025-06-08" Status.PENDING 0] 1
      = some (Booking.mk 1 50 "u" "2025-06-08" Status.PENDING 0) ∧
    py_strip "X" = "X" ∧
    booking_status
        (admin_rejection_reason_handler [9] (AdminUser.mk 9 "A") (some "X")
          (admin_approve_reject [9] (AdminUser.mk 9 "A") "reject" 1
            (BotState.mk [Booking.mk 1 50 "u" "2025-06-08" Status.PENDING 0]
              2 [] [] [])).1).1.bookings 1
      = some Status.REJECTED :=
  ⟨rfl, rfl,
   (C3_rejection_reason_roundtrip [9] (AdminUser.mk 9 "A") 1
     (BotState.mk [Booking.mk 1 50 "u" "2025-06-08" Status.PENDING 0] 2 [] [] [])
     (Booking.mk 1 50 "u" "2025-06-08" Status.PENDING 0) "X" rfl rfl
     (by decide)).2.1⟩

/-- Claim C5: during intake, selecting a date for which the requester already
holds a non-REJECTED booking, or whose APPROVED count has reached the capacity
of 10, is rejected with a terminating message: the conversation ends
(ConvState.END, not a re-prompt), the store is returned unchanged (no booking
created), and the user_data is not modified. -/
theorem C5_date_conflict_terminates (user : TgUser) (data : String) (st : BotState)
    (ud : UserData) (hp : py_starts_with data "date:" = true) :
    (user_has_booking_for_date st.bookings user.id (data.drop 5) = true →
      receive_date_callback user data st ud
        = (ud, ConvState.END, st,
           [Out.edit_message_text
             ("بالفغل لديك موعد محدد " ++ data.drop 5
               ++ ". لاتستطيع الحجز مرة اخري الان")])) ∧
    (user_has_booking_for_date st.bookings user.id (data.drop 5) = false →
      10 ≤ count_approved_for_date st.bookings (data.drop 5) →
      receive_date_callback user data st ud
        = (ud, ConvState.END, st,
           [Out.edit_message_text
             (data.drop 5 ++ " التاريخ المحدد ملئ برجاء اختيار موعد اخر")])) := by
  constructor
  · intro h1
    unfold receive_date_callback
    simp [hp, h1]
  · intro h1 h2
    unfold receive_date_callback
    simp [hp, h1, h2]

theorem C5_date_conflict_terminates_witness :
    py_starts_with "date:2025-06-08" "date:" = true ∧
    user_has_booking_for_date [Booking.mk 1 50 "u" "2025-06-08" Status.PENDING 0]
        50 ("date:2025-06-08".drop 5) = true ∧
    receive_date_callback (TgUser.mk 50 (some "u") "U") "date:2025-06-08"
        (BotState.mk [Booking.mk 1 50 "u" "2025-06-08" Status.PENDING 0] 2 [] [] [])
        (UserData.mk (some 2) (some []) none)
      = (UserData.mk (some 2) (some []) none, ConvState.END,
         BotState.mk [Booking.mk 1 50 "u" "2025-06-08" Status.PENDING 0] 2 [] [] [],
         [Out.edit_message_text
           ("بالفغل لديك موعد محدد " ++ "date:2025-06-08".drop 5
             ++ ". لاتستطيع الحجز مرة اخري الان")]) :=
  ⟨by decide, by decide,
   (C5_date_conflict_terminates (TgUser.mk 50 (some "u") "U") "date:2025-06-08"
     (BotState.mk [Booking.mk 1 50 "u" "2025-06-08" Status.PENDING 0] 2 [] [] [])
     (UserData.mk (some 2) (some []) none) (by decide)).1 (by decide)⟩

/-- Claim C8: the pending-rejection store keeps at most one outstanding entry
per approver (both handlers preserve key-uniqueness of the map), and a second
reject by the same approver before supplying a reason overwrites the first
entry (last-write-wins), so a subsequent reason rejects only the most recently
rejected booking and leaves the status of the first booking untouched. -/
theorem C8_pending_rejection_last_write_wins :
    (∀ (ADMIN_IDS : List Nat) (admin : AdminUser) (action : String)
        (booking_id : Nat) (st : BotState),
      at_most_one_pending st.pending_rejections →
      at_most_one_pending
        (admin_approve_reject ADMIN_IDS admin action booking_id st).1.pending_rejections) ∧
    (∀ (ADMIN_IDS : List Nat) (admin : AdminUser) (text : Option String)
        (st : BotState),
      at_most_one_pending st.pending_rejections →
      at_most_one_pending
        (admin_rejection_reason_handler ADMIN_IDS admin text st).1.pending_rejections) ∧
    (∀ (ADMIN_IDS : List Nat) (admin : AdminUser) (b1 b2 : Nat) (st : BotState)
        (x1 x2 : Booking),
      get_booking st.bookings b1 = some x1 →
      get_booking st.bookings b2 = some x2 →
      dict_get
          (admin_approve_reject ADMIN_IDS admin "reject" b2
            (admin_approve_reject ADMIN_IDS admin "reject" b1 st).1).1.pending_rejections
          admin.id
        = some b2) ∧
    (∀ (ADMIN_IDS : List Nat) (admin : AdminUser) (b1 b2 : Nat) (st : BotState)
        (x1 x2 : Booking) (text : String),
      get_booking st.bookings b1 = some x1 →
      get_booking st.bookings b2 = some x2 →
      b1 ≠ b2 → py_strip text = text → text ≠ "" →
      booking_status
          (admin_rejection_reason_handler ADMIN_IDS admin (some text)
            (admin_approve_reject ADMIN_IDS admin "reject" b2
              (admin_approve_reject ADMIN_IDS admin "reject" b1 st).1).1).1.bookings
          b2
        = some Status.REJECTED ∧
      booking_status
          (admin_rejection_reason_handler ADMIN_IDS admin (some text)
            (admin_approve_reject ADMIN_IDS admin "reject" b2
              (admin_approve_reject ADMIN_IDS admin "reject" b1 st).1).1).1.bookings
          b1
        = booking_status st.bookings b1) := by
  refine ⟨?_, ?_, ?_, ?_⟩
  · intro ADMIN_IDS admin action booking_id st h
    unfold admin_approve_reject
    cases hgb : get_booking st.bookings booking_id with
    | none => exact h
    | some b =>
      simp only
      split_ifs with h1 h2 h3
      · exact h
      · exact h
      · exact dict_set_keys_nodup _ _ _ h
      · exact h
  · intro ADMIN_IDS admin text st h
    unfold admin_rejection_reason_handler
    cases hdg : dict_get st.pending_rejections admin.id with
    | none => exact h
    | some booking_id =>
      simp only
      split_ifs with h1
      · exact h
      · cases hgb : get_booking st.bookings booking_id with
        | none => exact dict_pop_keys_nodup _ _ h
        | some b => exact dict_pop_keys_nodup _ _ h
  · intro ADMIN_IDS admin b1 b2 st x1 x2 hb1 hb2
    rw [reject_state ADMIN_IDS admin b1 st x1 hb1]
    have e2 := reject_state ADMIN_IDS admin b2
      { st with
          admin_messages := clear_admin_messages st.admin_messages b1,
          pending_rejections := dict_set st.pending_rejections admin.id b1 } x2 hb2
    rw [e2]
    exact dict_get_set_self _ _ _
  · intro ADMIN_IDS admin b1 b2 st x1 x2 text hb1 hb2 hne12 ht htext
    rw [reject_state ADMIN_IDS admin b1 st x1 hb1]
    have e2 := reject_state ADMIN_IDS admin b2
      { st with
          admin_messages := clear_admin_messages st.admin_messages b1,
          pending_rejections := dict_set st.pending_rejections admin.id b1 } x2 hb2
    rw [e2]
    have e3 := reason_state ADMIN_IDS admin text
      { { st with
            admin_messages := clear_admin_messages st.admin_messages b1,
            pending_rejections := dict_set st.pending_rejections admin.id b1 } with
          admin_messages := clear_admin_messages
            (clear_admin_messages st.admin_messages b1) b2,
          pending_rejections := dict_set (dict_set st.pending_rejections admin.id b1)
            admin.id b2 }
      b2 x2 (dict_get_set_self _ _ _) hb2 ht htext
    rw [e3]
    constructor
    · show booking_status (set_booking_status st.bookings b2 Status.REJECTED) b2
        = some Status.REJECTED
      simp [booking_status,
        get_booking_set_status_self st.bookings b2 x2 Status.REJECTED hb2]
    · show booking_status (set_booking_status st.bookings b2 Status.REJECTED) b1
        = booking_status st.bookings b1
      simp [booking_status, get_booking_set_status_ne st.bookings b2 b1
        Status.REJECTED hne12]

theorem C8_pending_rejection_last_write_wins_witness :
    get_booking
        [Booking.mk 1 50 "u" "2025-06-08" Status.PENDING 0,
         Booking.mk 2 60 "v" "2025-06-09" Status.PENDING 1] 1
      = some (Booking.mk 1 50 "u" "2025-06-08" Status.PENDING 0) ∧
    get_booking
        [Booking.mk 1 50 "u" "2025-06-08" Status.PENDING 0,
         Booking.mk 2 60 "v" "2025-06-09" Status.PENDING 1] 2
      = some (Booking.mk 2 60 "v" "2025-06-09" Status.PENDING 1) ∧
    dict_get
        (admin_approve_reject [9] (AdminUser.mk 9 "A") "reject" 2
          (admin_approve_reject [9] (AdminUser.mk 9 "A") "reject" 1
            (BotState.mk
              [Booking.mk 1 50 "u" "2025-06-08" Status.PENDING 0,
               Booking.mk 2 60 "v" "2025-06-09" Status.PENDING 1]
              3 [] [] [])).1).1.pending_rejections 9
      = some 2 :=
  ⟨rfl, rfl,
   C8_pending_rejection_last_write_wins.2.2.1 [9] (AdminUser.mk 9 "A") 1 2
     (BotState.mk
       [Booking.mk 1 50 "u" "2025-06-08" Status.PENDING 0,
        Booking.mk 2 60 "v" "2025-06-09" Status.PENDING 1]
       3 [] [] [])
     (Booking.mk 1 50 "u" "2025-06-08" Status.PENDING 0)
     (Booking.mk 2 60 "v" "2025-06-09" Status.PENDING 1) rfl rfl⟩

/-- Claim C4: attachment collection.  (i) A declared file count that is not
an integer, or is an integer below 1, re-prompts without advancing the state;
(ii) a valid integer n ≥ 1 records the target and advances; (iii) a
non-attachment input in the collection state re-prompts without consuming a
slot; (iv) each valid document or photo appends one file record, decrementing
the remaining count; (v) when the declared count is reached, a PENDING booking
holding exactly n attachment records is created and the conversation ends. -/
theorem C4_attachment_collection :
    (∀ (text : String) (ud : UserData),
      str_to_int (py_strip text) = none →
      receive_file_count text ud
        = (ud, ConvState.ASK_FILE_COUNT, [Out.reply_text "برجاء ادخال أرقام فقط"])) ∧
    (∀ (text : String) (ud : UserData) (c : Int),
      str_to_int (py_strip text) = some c → c < 1 →
      receive_file_count text ud
        = (ud, ConvState.ASK_FILE_COUNT, [Out.reply_text "برجاء ادخال أرقام فقط"])) ∧
    (∀ (text : String) (ud : UserData) (n : Int),
      str_to_int (py_strip text) = some n → 1 ≤ n →
      receive_file_count text ud
        = ({ ud with file_count := some n.toNat, received_files := some [] },
           ConvState.ASK_DATE, [Out.reply_text "من فضلك اختار موعد للزيارة "])) ∧
    (∀ (ADMIN_IDS : List Nat) (user : TgUser) (now : Nat) (msg_id : Nat → Nat)
        (st : BotState) (ud : UserData) (d : String),
      ud.chosen_date = some d →
      receive_file ADMIN_IDS user MsgContent.other now msg_id st ud
        = (ud, ConvState.ASK_DOC, st, [Out.reply_text "ارسل صورة او ملف"])) ∧
    (∀ (ADMIN_IDS : List Nat) (user : TgUser) (content : MsgContent) (now : Nat)
        (msg_id : Nat → Nat) (st : BotState) (ud : UserData) (d : String) (n : Nat)
        (fs : List (String × String × String)) (rec : String × String × String),
      ud.chosen_date = some d → ud.file_count = some n → ud.received_files = some fs →
      extract_file user content now = some rec → fs.length + 1 < n →
      receive_file ADMIN_IDS user content now msg_id st ud
        = ({ ud with received_files := some (fs ++ [rec]) }, ConvState.ASK_DOC, st,
           [Out.reply_text ("مستلم. مرسل "
             ++ toString ((n : Int) - ((fs.length : Int) + 1)) ++ " ملفات اخري")])) ∧
    (∀ (ADMIN_IDS : List Nat) (user : TgUser) (content : MsgContent) (now : Nat)
        (msg_id : Nat → Nat) (st : BotState) (ud : UserData) (d : String) (n : Nat)
        (fs : List (String × String × String)) (rec : String × String × String),
      ud.chosen_date = some d → ud.file_count = some n → ud.received_files = some fs →
      extract_file user content now = some rec → fs.length + 1 = n →
      (∀ bk ∈ st.bookings, bk.id ≠ st.next_id) →
      (∀ f ∈ st.booking_files, f.booking_id ≠ st.next_id) →
      (receive_file ADMIN_IDS user content now msg_id st ud).2.1 = ConvState.END ∧
      get_booking (receive_file ADMIN_IDS user content now msg_id st ud).2.2.1.bookings
          st.next_id
        = some (Booking.mk st.next_id user.id (user.username.getD "") d
            Status.PENDING now) ∧
      (get_booking_files
          (receive_file ADMIN_IDS user content now msg_id st ud).2.2.1.booking_files
          st.next_id).length = n) := by
  refine ⟨?_, ?_, ?_, ?_, ?_, ?_⟩
  · intro text ud h
    simp [receive_file_count, h]
  · intro text ud c h hc
    simp [receive_file_count, h, hc]
  · intro text ud n h hn
    have hnot : ¬ (n < 1) := not_lt.mpr hn
    simp [receive_file_count, h, hnot]
  · intro ADMIN_IDS user now msg_id st ud d hd
    simp [receive_file, hd, extract_file]
  · intro ADMIN_IDS user content now msg_id st ud d n fs rec hd hfc hrf hex hlt
    have hpos : (0 : Int) < (n : Int) - ((fs.length : Int) + 1) := by omega
    simp [receive_file, hd, hfc, hrf, hex, List.length_append, hpos]
  · intro ADMIN_IDS user content now msg_id st ud d n fs rec hd hfc hrf hex hlen hfb hff
    have hnot : ¬ ((0 : Int) < (n : Int) - ((fs.length : Int) + 1)) := by omega
    refine ⟨?_, ?_, ?_⟩
    · simp [receive_file, hd, hfc, hrf, hex, List.length_append, hnot]
    · have hres : (receive_file ADMIN_IDS user content now msg_id st ud).2.2.1.bookings
          = st.bookings ++ [Booking.mk st.next_id user.id (user.username.getD "") d
              Status.PENDING now] := by
        simp [receive_file, hd, hfc, hrf, hex, List.length_append, hnot, create_booking]
      rw [hres]
      exact get_booking_append_fresh st.bookings
        (Booking.mk st.next_id user.id (user.username.getD "") d Status.PENDING now) hfb
    · have hres : (receive_file ADMIN_IDS user content now msg_id st ud).2.2.1.booking_files
          = st.booking_files ++ (fs ++ [rec]).map
              (fun (f : String × String × String) =>
                BookingFile.mk st.next_id f.1 f.2.1 f.2.2) := by
        simp [receive_file, hd, hfc, hrf, hex, List.length_append, hnot, create_booking]
      rw [hres]
      rw [get_booking_files_append_fresh st.booking_files _ st.next_id hff ?h2]
      case h2 =>
        intro f hf
        rw [List.mem_map] at hf
        obtain ⟨x, hx, hfx⟩ := hf
        rw [← hfx]
      · rw [List.length_map, List.length_append, List.length_cons, List.length_nil]
        omega

theorem C4_attachment_collection_witness :
    str_to_int (py_strip "2") = some 2 ∧
    (UserData.mk (some 2) (some [("f1", "document", "a.pdf")]) (some "2025-06-08")).received_files
      = some [("f1", "document", "a.pdf")] ∧
    extract_file (TgUser.mk 50 (some "u") "U") (MsgContent.document "f2" (some "b.pdf")) 0
      = some ("f2", "document", "b.pdf") ∧
    (receive_file [9] (TgUser.mk 50 (some "u") "U") (MsgContent.document "f2" (some "b.pdf"))
        0 (fun _ => 0) (BotState.mk [] 1 [] [] [])
        (UserData.mk (some 2) (some [("f1", "document", "a.pdf")]) (some "2025-06-08"))).2.1
      = ConvState.END ∧
    get_booking
        (receive_file [9] (TgUser.mk 50 (some "u") "U") (MsgContent.document "f2" (some "b.pdf"))
          0 (fun _ => 0) (BotState.mk [] 1 [] [] [])
          (UserData.mk (some 2) (some [("f1", "document", "a.pdf")]) (some "2025-06-08"))).2.2.1.bookings
        1
      = some (Booking.mk 1 50 "u" "2025-06-08" Status.PENDING 0) ∧
    (get_booking_files
        (receive_file [9] (TgUser.mk 50 (some "u") "U") (MsgContent.document "f2" (some "b.pdf"))
          0 (fun _ => 0) (BotState.mk [] 1 [] [] [])
          (UserData.mk (some 2) (some [("f1", "document", "a.pdf")]) (some "2025-06-08"))).2.2.1.booking_files
        1).length = 2 := by
  have h := (C4_attachment_collection.2.2.2.2.2) [9] (TgUser.mk 50 (some "u") "U")
    (MsgContent.document "f2" (some "b.pdf")) 0 (fun _ => 0) (BotState.mk [] 1 [] [] [])
    (UserData.mk (some 2) (some [("f1", "document", "a.pdf")]) (some "2025-06-08"))
    "2025-06-08" 2 [("f1", "document", "a.pdf")] ("f2", "document", "b.pdf")
    rfl rfl rfl rfl (by decide) (by intro bk hbk; cases hbk) (by intro f hf; cases hf)
  exact ⟨by decide, rfl, rfl, h.1, h.2.1, h.2.2⟩

/- ------------------------------------------------------------------ -/
/- Calendar-policy lemmas for claim C6.                               -/
/- ------------------------------------------------------------------ -/

theorem next_n_sunthu_aux_length (today : Nat) :
    ∀ (fuel n d : Nat),
      (next_n_sunthu_aux today fuel n d).length = min n (count_eligible today d fuel) := by
  intro fuel
  induction fuel with
  | zero =>
    intro n d
    simp [next_n_sunthu_aux, count_eligible]
  | succ fuel ih =>
    intro n d
    by_cases hn : n = 0
    · simp [next_n_sunthu_aux, hn]
    · by_cases he : eligible today (d + 1)
      · simp only [next_n_sunthu_aux, count_eligible, if_pos he, if_neg hn,
          List.length_cons]
        rw [ih (n - 1) (d + 1)]
        omega
      · simp only [next_n_sunthu_aux, count_eligible, if_neg he, if_neg hn]
        rw [ih n (d + 1)]
        omega

theorem count_eligible_add (today : Nat) :
    ∀ (a d b : Nat),
      count_eligible today d (a + b)
        = count_eligible today d a + count_eligible today (d + a) b := by
  intro a
  induction a with
  | zero =>
    intro d b
    simp [count_eligible]
  | succ a ih =>
    intro d b
    have h1 : a + 1 + b = (a + b) + 1 := by omega
    rw [h1]
    simp only [count_eligible]
    rw [ih (d + 1) b]
    have h2 : d + 1 + a = d + (a + 1) := by omega
    rw [h2]
    omega

theorem exists_eligible_of_le (today d : Nat) (h : today ≤ d) :
    ∃ k, 1 ≤ k ∧ k ≤ 7 ∧ eligible today (d + k) := by
  have h7 : d % 7 = 0 ∨ d % 7 = 1 ∨ d % 7 = 2 ∨ d % 7 = 3 ∨ d % 7 = 4 ∨ d % 7 = 5
      ∨ d % 7 = 6 := by omega
  rcases h7 with hw | hw | hw | hw | hw | hw | hw
  · exact ⟨2, by omega, by omega, by omega, by simp [is_allowed_weekday]; omega⟩
  · exact ⟨2, by omega, by omega, by omega, by simp [is_allowed_weekday]; omega⟩
  · exact ⟨4, by omega, by omega, by omega, by simp [is_allowed_weekday]; omega⟩
  · exact ⟨3, by omega, by omega, by omega, by simp [is_allowed_weekday]; omega⟩
  · exact ⟨2, by omega, by omega, by omega, by simp [is_allowed_weekday]; omega⟩
  · exact ⟨2, by omega, by omega, by omega, by simp [is_allowed_weekday]; omega⟩
  · exact ⟨2, by omega, by omega, by omega, by simp [is_allowed_weekday]; omega⟩

theorem count_eligible_pos (today : Nat) :
    ∀ (len d : Nat), (∃ k, 1 ≤ k ∧ k ≤ len ∧ eligible today (d + k)) →
      1 ≤ count_eligible today d len := by
  intro len
  induction len with
  | zero =>
    rintro d ⟨k, h1, h2, _⟩
    omega
  | succ len ih =>
    rintro d ⟨k, h1, h2, he⟩
    by_cases hk : k = 1
    · subst hk
      simp only [count_eligible, if_pos he]
      omega
    · have h3 : ∃ k2, 1 ≤ k2 ∧ k2 ≤ len ∧ eligible today (d + 1 + k2) := by
        refine ⟨k - 1, by omega, by omega, ?_⟩
        have hkk : d + 1 + (k - 1) = d + k := by omega
        rw [hkk]
        exact he
      have h4 := ih (d + 1) h3
      simp only [count_eligible]
      omega

theorem count_eligible_blocks (today : Nat) :
    ∀ (m d : Nat), today ≤ d → m ≤ count_eligible today d (7 * m) := by
  intro m
  induction m with
  | zero =>
    intro d h
    omega
  | succ m ih =>
    intro d h
    have h1 : 7 * (m + 1) = 7 + 7 * m := by ring
    rw [h1, count_eligible_add]
    have h2 := count_eligible_pos today 7 d (exists_eligible_of_le today d h)
    have h3 := ih (d + 7) (by omega)
    omega

theorem next_n_sunthu_length (today n : Nat) :
    (next_n_sunthu today n).length = n := by
  unfold next_n_sunthu
  rw [next_n_sunthu_aux_length]
  have h1 : 7 * n + 7 = 7 * (n + 1) := by ring
  rw [h1]
  have h2 := count_eligible_blocks today (n + 1) today (le_refl today)
  omega

theorem next_n_sunthu_aux_mem (today : Nat) :
    ∀ (fuel n d x : Nat), x ∈ next_n_sunthu_aux today fuel n d →
      eligible today x ∧ d < x := by
  intro fuel
  induction fuel with
  | zero =>
    intro n d x hx
    simp [next_n_sunthu_aux] at hx
  | succ fuel ih =>
    intro n d x hx
    by_cases hn : n = 0
    · simp [next_n_sunthu_aux, hn] at hx
    · by_cases he : eligible today (d + 1)
      · simp only [next_n_sunthu_aux, if_neg hn, if_pos he, List.mem_cons] at hx
        rcases hx with rfl | hx
        · exact ⟨he, by omega⟩
        · have h2 := ih (n - 1) (d + 1) x hx
          exact ⟨h2.1, by omega⟩
      · simp only [next_n_sunthu_aux, if_neg hn, if_neg he] at hx
        have h2 := ih n (d + 1) x hx
        exact ⟨h2.1, by omega⟩

theorem next_n_sunthu_aux_pairwise (today : Nat) :
    ∀ (fuel n d : Nat), (next_n_sunthu_aux today fuel n d).Pairwise (· < ·) := by
  intro fuel
  induction fuel with
  | zero =>
    intro n d
    simp [next_n_sunthu_aux]
  | succ fuel ih =>
    intro n d
    by_cases hn : n = 0
    · simp [next_n_sunthu_aux, hn]
    · by_cases he : eligible today (d + 1)
      · simp only [next_n_sunthu_aux, if_neg hn, if_pos he, List.pairwise_cons]
        refine ⟨fun x hx => ?_, ih (n - 1) (d + 1)⟩
        exact (next_n_sunthu_aux_mem today fuel (n - 1) (d + 1) x hx).2
      · simp only [next_n_sunthu_aux, if_neg hn, if_neg he]
        exact ih n (d + 1)

/-- Claim C6: for every n and every value of today, next_n_sunthu returns
exactly n days, each on an allowed weekday (Sunday through Thursday, i.e. 5 of
the 7 weekdays) and at least 2 days after today, in strictly increasing
order.  The enumeration is a pure function of today and n, hence
deterministic. -/
theorem C6_next_n_sunthu_spec (today n : Nat) :
    (next_n_sunthu today n).length = n ∧
    (∀ x ∈ next_n_sunthu today n, is_allowed_weekday x = true ∧ today + 2 ≤ x) ∧
    (next_n_sunthu today n).Pairwise (· < ·) := by
  refine ⟨next_n_sunthu_length today n, ?_,
    next_n_sunthu_aux_pairwise today (7 * n + 7) n today⟩
  intro x hx
  have h2 := next_n_sunthu_aux_mem today (7 * n + 7) n today x hx
  exact ⟨h2.1.2, h2.1.1⟩

theorem C6_next_n_sunthu_spec_witness :
    (9 ∈ next_n_sunthu 0 10) ∧ (is_allowed_weekday 9 = true ∧ 0 + 2 ≤ 9) :=
  ⟨by decide, (C6_next_n_sunthu_spec 0 10).2.1 9 (by decide)⟩

end TBot
